import Mathlib

/-!
Verification development for the TeleTracker message-dispatch pipeline.

The embedding models, from the source:
  * `SummaryModel.js` — the SQLite-backed outcome store (`saveMessage`,
    `getSummary`);
  * `MessageSender.js` — the dispatch sequencer (`sendAll`) and the two
    gateway operations (`sendSMS`, `sendMMS`), including their request
    construction and error handling.

Persistence is modelled as explicit state passing over a list of rows; the
injected database behaviour (each insert may succeed or fail) is an oracle
`saveOk : Nat -> Bool` indexed by the number of insert calls made so far.
JavaScript values that matter to the control flow (response bodies, the
truthiness coercion in `success ? 1 : 0`) are modelled by `JSVal`.
-/

namespace TeleTracker

/-- A JavaScript value, as far as the dispatch pipeline inspects one:
booleans, numbers, strings, null, undefined and plain objects. -/
inductive JSVal where
  | vBool : Bool → JSVal
  | vNum : Int → JSVal
  | vStr : String → JSVal
  | vNull : JSVal
  | vUndefined : JSVal
  | vObj : List (String × JSVal) → JSVal

/-- JavaScript truthiness, used by `success ? 1 : 0` in `saveMessage`.
(NaN is not modelled; `vNum` covers integral numbers only.) -/
def truthy : JSVal → Bool
  | .vBool b => b
  | .vNum n => n != 0
  | .vStr s => s != ""
  | .vNull => false
  | .vUndefined => false
  | .vObj _ => true

/-- Strict equality against the boolean literal true: models the
`=== true` test in `response.data?.success === true`. -/
def isTrue : JSVal → Bool
  | .vBool true => true
  | _ => false

/-- Property lookup on a JavaScript object literal; a missing key reads as
undefined. -/
def lookupField : List (String × JSVal) → String → JSVal
  | [], _ => .vUndefined
  | (k, v) :: rest, key => if k = key then v else lookupField rest key

/-- Models `x?.field`: optional chaining returns undefined on null or
undefined, reads the property on an object, and yields undefined when the
receiver is a primitive without that property. -/
def optChain : JSVal → String → JSVal
  | .vObj fields, key => lookupField fields key
  | _, _ => .vUndefined

/-! ## Outcome store (`SummaryModel.js`) -/

/-- One row of the `messages` table: columns `type` (TEXT), `success`
(INTEGER) and `duration` (INTEGER).  `id` and `created_at` are assigned by
SQLite and play no role in any claim. -/
structure MessageRow where
  type : String
  success : Int
  duration : Nat
deriving DecidableEq, Repr

/-- The store state: the rows of the `messages` table in insertion order,
plus the number of insert calls made so far (the index into the injected
insert-outcome oracle). -/
structure StoreState where
  rows : List MessageRow
  calls : Nat
deriving DecidableEq, Repr

/-- `SummaryModel.saveMessage(type, success, duration)` (lines 79 to 87):
inserts one row with the success flag normalised by `success ? 1 : 0`,
resolving on success and rejecting on a database error.  The oracle
`saveOk` decides whether the underlying `db.run` reports an error for this
call; a rejection carries the store state (no row is inserted, the call
counter advances). -/
def saveMessage (saveOk : Nat → Bool) (type : String) (success : JSVal)
    (duration : Nat) (st : StoreState) : Except StoreState StoreState :=
  if saveOk st.calls then
    .ok ⟨st.rows ++ [⟨type, if truthy success then 1 else 0, duration⟩], st.calls + 1⟩
  else
    .error ⟨st.rows, st.calls + 1⟩

/-- Models the JavaScript `total || 1` guard in `getSummary`. -/
def jsOr1 (n : Nat) : Nat := if n = 0 then 1 else n

/-- The count of rows `getSummary` classifies as successful:
`rows.filter(r => r.success === 1).length` (line 110). -/
def successCount (rows : List MessageRow) : Nat :=
  (rows.filter (fun r => r.success == 1)).length

/-- `rows.filter(r => r.type === 'SMS').length` (line 106). -/
def smsCount (rows : List MessageRow) : Nat :=
  (rows.filter (fun r => r.type == "SMS")).length

/-- `rows.filter(r => r.type === 'MMS').length` (line 107). -/
def mmsCount (rows : List MessageRow) : Nat :=
  (rows.filter (fun r => r.type == "MMS")).length

/-- `rows.reduce((a, b) => a + b.duration, 0)` (line 108). -/
def durationSum (rows : List MessageRow) : Nat :=
  rows.foldl (fun a r => a + r.duration) 0

/-- The local `avg` of `getSummary`:
`rows.reduce(...) / (total || 1)` as an exact rational. -/
def avgValue (rows : List MessageRow) : ℚ :=
  (durationSum rows : ℚ) / (jsOr1 rows.length : ℚ)

/-- The local `successRate` of `getSummary`:
`(rows.filter(r => r.success === 1).length / (total || 1)) * 100`. -/
def successRateValue (rows : List MessageRow) : ℚ :=
  ((successCount rows : ℚ) / (jsOr1 rows.length : ℚ)) * 100

/-- Models `x.toFixed(2)` scaled by 100: the string `x.toFixed(2)` denotes
the decimal `toFixed2X100 x / 100`.  (Rounding to the nearest multiple of
1/100; no value in this development sits at a rounding tie.) -/
def toFixed2X100 (q : ℚ) : ℤ := round (q * 100)

/-- The summary object built by `getSummary` (lines 99 to 121).  The two
`toFixed(2)` strings are represented by their values scaled by 100. -/
structure Summary where
  total : Nat
  sms : Nat
  mms : Nat
  avgDurationX100 : ℤ
  successRateX100 : ℤ
deriving DecidableEq, Repr

/-- `SummaryModel.getSummary()` over the current rows: total count, SMS
and MMS counts, average duration and success rate, with the empty store
guarded by `total || 1`. -/
def getSummary (rows : List MessageRow) : Summary :=
  { total := rows.length
    sms := smsCount rows
    mms := mmsCount rows
    avgDurationX100 := toFixed2X100 (avgValue rows)
    successRateX100 := toFixed2X100 (successRateValue rows) }

/-! ## Gateway requests (`MessageSender.js`, wire contract) -/

/-- The configuration read from the environment (`config/env.js`): gateway
base URL, integrator credentials, account id and destination number. -/
structure Env where
  apiBase : String
  user : String
  pass : String
  accountId : String
  phone : String
deriving DecidableEq, Repr

/-- The RFC 4648 base64 alphabet, as characters. -/
def base64Chars : List Char :=
  "ABCDEFGHIJKLMNOPQRSTUVWXYZabcdefghijklmnopqrstuvwxyz0123456789+/".toList

/-- One character of the base64 alphabet. -/
def b64Char (n : Nat) : Char := base64Chars.getD n 'A'

/-- Standard base64 of a byte sequence, with `=` padding: models
`Buffer.from(s).toString(..)` with base64 output in `_getAuthHeader`. -/
def base64Encode : List Nat → String
  | [] => ""
  | [a] =>
    String.mk [b64Char (a / 4), b64Char (a % 4 * 16), '=', '=']
  | [a, b] =>
    String.mk [b64Char (a / 4), b64Char (a % 4 * 16 + b / 16), b64Char (b % 16 * 4), '=']
  | a :: b :: c :: rest =>
    String.mk [b64Char (a / 4), b64Char (a % 4 * 16 + b / 16),
      b64Char (b % 16 * 4 + c / 64), b64Char (c % 64)] ++ base64Encode rest

/-- The UTF-8 bytes of a string. -/
def utf8Bytes (s : String) : List Nat := s.toUTF8.toList.map (·.toNat)

/-- `MessageSender._getAuthHeader()` (lines 213 to 216): base64 of
`user:pass`, prefixed with the `Integrator` scheme. -/
def authHeader (e : Env) : String × String :=
  ("Authorization", "Integrator " ++ base64Encode (utf8Bytes (e.user ++ ":" ++ e.pass)))

/-- The HTTP request issued for one text message. -/
structure SmsRequest where
  method : String
  url : String
  body : List (String × JSVal)
  headers : List (String × String)

/-- The request built by `sendSMS` (lines 262 to 275): a POST to
`<base>/sms/send` with a JSON body of `account_id`, `to_number` and
`payload`, under the auth header and a JSON content type. -/
def buildSmsRequest (e : Env) (text : String) : SmsRequest :=
  { method := "POST"
    url := e.apiBase ++ "/sms/send"
    body := [("account_id", .vStr e.accountId), ("to_number", .vStr e.phone),
      ("payload", .vStr text)]
    headers := [authHeader e, ("Content-Type", "application/json")] }

/-- One part of a multipart/form-data body: a plain field or a file field
with filename and content-type metadata. -/
inductive FormPart where
  | field (name value : String)
  | file (name : String) (content : List Nat) (filename contentType : String)
deriving Repr

/-- The HTTP request issued for the media message. -/
structure MmsRequest where
  method : String
  url : String
  parts : List FormPart
  headers : List (String × String)
deriving Repr

/-- The request built by `sendMMS` (lines 313 to 335): a POST to
`<base>/mms/send` as multipart/form-data with fields `account_id`,
`to_number`, `payload` (the fixed caption) and the image file part
`image1` (filename `image.jpg`, content type `image/jpeg`), under the
auth header plus the form-data content-type header (its random boundary
parameter is elided). -/
def buildMmsRequest (e : Env) (image : List Nat) : MmsRequest :=
  { method := "POST"
    url := e.apiBase ++ "/mms/send"
    parts := [.field ("account_id") e.accountId, .field ("to_number") e.phone,
      .field ("payload") "This is a test MMS message",
      .file ("image1") image ("image.jpg") "image/jpeg"]
    headers := [authHeader e, ("Content-Type", "multipart/form-data")] }

/-! ## Sender control flow (`MessageSender.js`) -/

/-- How the `axios.post` promise for a text send settles: resolved with a
parsed response body (axios resolves only 2xx responses), or rejected
(network or timeout error, or a non-2xx status). -/
inductive AxiosOutcome where
  | resolved (data : JSVal)
  | rejected

/-- How the media send settles: the image fetch from the image provider
may reject, the gateway POST may reject, or the POST resolves with a
parsed response body. -/
inductive MmsOutcome where
  | fetchFailed
  | postRejected
  | resolved (data : JSVal)

/-- `MessageSender.sendSMS(text)` (lines 259 to 295), projected onto its
store effect.  On a resolved response the success flag is
`response.data?.success === true` and the row is written inside the try
block; the catch block covers both a rejected request and a store error
thrown by that first write, and writes a failure row (whose own store
error propagates to the caller).  `durOk` is the duration measured after
the response, `durCatch` the one measured at catch entry. -/
def sendSMS (saveOk : Nat → Bool) (text : String) (outcome : AxiosOutcome)
    (durOk durCatch : Nat) (st : StoreState) : Except StoreState StoreState :=
  match outcome with
  | .resolved data =>
    match saveMessage saveOk ("SMS") (.vBool (isTrue (optChain data ("success")))) durOk st with
    | .ok st1 => .ok st1
    | .error st1 => saveMessage saveOk ("SMS") (.vBool false) durCatch st1
  | .rejected =>
    saveMessage saveOk ("SMS") (.vBool false) durCatch st

/-- `MessageSender.sendMMS()` (lines 304 to 347), projected onto its store
effect.  A failed image fetch and a rejected gateway POST both land in
the catch block, which writes a failure row; a resolved POST writes a row
classified by `response.data?.success === true`; a store error from the
try-block write is caught and retried as a failure row, as in `sendSMS`. -/
def sendMMS (saveOk : Nat → Bool) (outcome : MmsOutcome)
    (durOk durCatch : Nat) (st : StoreState) : Except StoreState StoreState :=
  match outcome with
  | .resolved data =>
    match saveMessage saveOk ("MMS") (.vBool (isTrue (optChain data ("success")))) durOk st with
    | .ok st1 => .ok st1
    | .error st1 => saveMessage saveOk ("MMS") (.vBool false) durCatch st1
  | .fetchFailed => saveMessage saveOk ("MMS") (.vBool false) durCatch st
  | .postRejected => saveMessage saveOk ("MMS") (.vBool false) durCatch st

/-- An observable step of a run: a text send attempt for a payload, the
fixed 7.5 second pause, or the media send attempt. -/
inductive Event where
  | text (payload : String)
  | pause (ms : Nat)
  | media
deriving DecidableEq, Repr

/-- The injected behaviour of one run: the store oracle, the settle
behaviour and measured durations of the text send for each message index,
and the settle behaviour and durations of the media send. -/
structure RunEnv where
  saveOk : Nat → Bool
  outcomes : Nat → AxiosOutcome
  durOk : Nat → Nat
  durCatch : Nat → Nat
  mmsOutcome : MmsOutcome
  mmsDurOk : Nat
  mmsDurCatch : Nat

/-- The loop of `sendAll` (lines 235 to 239):
`for (let i = messages.length - 1; i >= 0; i--)` sends `messages[i]` and
then waits 7.5 seconds.  The fuel argument is `i + 1`; a store error
thrown by `sendSMS` skips the pause and aborts the loop. -/
def smsLoop (ρ : RunEnv) (messages : List String) :
    Nat → StoreState → List Event × Except StoreState StoreState
  | 0, st => ([], .ok st)
  | i + 1, st =>
    match sendSMS ρ.saveOk (messages.getD i ("")) (ρ.outcomes i) (ρ.durOk i) (ρ.durCatch i) st with
    | .error st1 => ([.text (messages.getD i (""))], .error st1)
    | .ok st1 =>
      (.text (messages.getD i ("")) :: .pause 7500 :: (smsLoop ρ messages i st1).1,
        (smsLoop ρ messages i st1).2)

/-- How a run ends: all sends done (`sendAll` returns), or
`process.exit(1)` from the catch block of `sendAll`. -/
inductive RunResult where
  | completed
  | exited (code : Nat)
deriving DecidableEq, Repr

/-- The observable outcome of a run: its event trace, the final store
state and how the process ended. -/
structure RunOutput where
  trace : List Event
  store : StoreState
  result : RunResult
deriving DecidableEq, Repr

/-- `MessageSender.sendAll()` (lines 229 to 251): the reverse-order text
loop followed by exactly one media send; any error reaching the
surrounding try (in this model, a store error) is caught and turns into
`process.exit(1)`.  The signal notifications (SIGHUP before the loop,
SIGINT after the media send) do not touch the store or the gateway and
are not modelled.  `st0` is the store state the injected model starts
with. -/
def sendAll (ρ : RunEnv) (messages : List String) (st0 : StoreState) : RunOutput :=
  match smsLoop ρ messages messages.length st0 with
  | (evs, .error st1) => ⟨evs, st1, .exited 1⟩
  | (evs, .ok st1) =>
    match sendMMS ρ.saveOk ρ.mmsOutcome ρ.mmsDurOk ρ.mmsDurCatch st1 with
    | .error st2 => ⟨evs ++ [.media], st2, .exited 1⟩
    | .ok st2 => ⟨evs ++ [.media], st2, .completed⟩

/-- The hardcoded payload list of `MessageSender` (lines 185 to 196). -/
def defaultMessages : List String :=
  ["Hello there, this is test message number one!",
   "How much does a cloud weigh on a sunny day?",
   "If cats could text, what would they even say?",
   "Message number four reporting for duty!",
   "Ever wondered where lost socks go?",
   "Beep boop... just another test message!",
   "How many tacos is too many tacos?",
   "This message is sponsored by curiosity.",
   "Testing, testing... is anyone out there?",
   "Message number ten - the grand finale!"]

/-- The payloads of the text-send events of a trace, in trace order. -/
def textPayloads (evs : List Event) : List String :=
  evs.filterMap (fun e => match e with | .text m => some m | _ => none)

/-- The closed form of the text phase of a run with a functioning store:
each payload send followed by the fixed 7.5 second pause. -/
def textPat (l : List String) : List Event :=
  l.flatMap (fun m => [.text m, .pause 7500])

/-- All rows have a success value normalised to 0 or 1. -/
def norm01 (rows : List MessageRow) : Prop :=
  ∀ r ∈ rows, r.success = 0 ∨ r.success = 1

/-- A run environment in which every send settles somehow and every store
insert succeeds; used by concrete instances of the general theorems. -/
def okEnv : RunEnv :=
  { saveOk := fun _ => true
    outcomes := fun _ => .rejected
    durOk := fun _ => 5
    durCatch := fun _ => 6
    mmsOutcome := .postRejected
    mmsDurOk := 7
    mmsDurCatch := 8 }

/-- A gateway response body asserting success: the parsed JSON
object with the field `success` set to the boolean true. -/
def goodBody : JSVal := .vObj [("success", .vBool true)]

/-- A run environment in which every send resolves successfully but the
store rejects exactly the first insert call and recovers afterwards. -/
def transientFailEnv : RunEnv :=
  { saveOk := fun k => k != 0
    outcomes := fun _ => .resolved goodBody
    durOk := fun _ => 10
    durCatch := fun _ => 12
    mmsOutcome := .resolved goodBody
    mmsDurOk := 20
    mmsDurCatch := 22 }

/-- The record set of testable property 4 of the specification. -/
def exampleRows : List MessageRow :=
  [⟨"SMS", 1, 100⟩, ⟨"SMS", 0, 300⟩, ⟨"MMS", 1, 200⟩]

/-- A concrete configuration for counterexample evaluation. -/
def env0 : Env := ⟨"B", "u", "p", "acct", "num"⟩

/-! ## Basic lemmas about the store and the two send operations -/

theorem saveMessage_ok_eq (saveOk : Nat → Bool) (type : String) (flag : JSVal)
    (dur : Nat) (st : StoreState) (h : saveOk st.calls = true) :
    saveMessage saveOk type flag dur st =
      .ok ⟨st.rows ++ [⟨type, if truthy flag then 1 else 0, dur⟩], st.calls + 1⟩ := by
  simp [saveMessage, h]

theorem saveMessage_fail_eq (saveOk : Nat → Bool) (type : String) (flag : JSVal)
    (dur : Nat) (st : StoreState) (h : saveOk st.calls = false) :
    saveMessage saveOk type flag dur st = .error ⟨st.rows, st.calls + 1⟩ := by
  simp [saveMessage, h]

theorem saveMessage_ok_rows (saveOk : Nat → Bool) (type : String) (flag : JSVal)
    (dur : Nat) (st st' : StoreState)
    (h : saveMessage saveOk type flag dur st = .ok st') :
    st'.rows = st.rows ++ [⟨type, if truthy flag then 1 else 0, dur⟩] := by
  unfold saveMessage at h
  split at h
  · cases h; rfl
  · simp at h

theorem saveMessage_error_rows (saveOk : Nat → Bool) (type : String) (flag : JSVal)
    (dur : Nat) (st st' : StoreState)
    (h : saveMessage saveOk type flag dur st = .error st') :
    st'.rows = st.rows := by
  unfold saveMessage at h
  split at h
  · simp at h
  · cases h; rfl

theorem sendSMS_resolved_eq (saveOk : Nat → Bool) (text : String) (data : JSVal)
    (dOk dC : Nat) (st : StoreState) (h : saveOk st.calls = true) :
    sendSMS saveOk text (.resolved data) dOk dC st =
      .ok ⟨st.rows ++ [⟨"SMS", if isTrue (optChain data ("success")) then 1 else 0, dOk⟩],
        st.calls + 1⟩ := by
  simp only [sendSMS]
  rw [saveMessage_ok_eq _ _ _ _ _ h]
  simp [truthy]

theorem sendSMS_rejected_eq (saveOk : Nat → Bool) (text : String)
    (dOk dC : Nat) (st : StoreState) (h : saveOk st.calls = true) :
    sendSMS saveOk text .rejected dOk dC st =
      .ok ⟨st.rows ++ [⟨"SMS", 0, dC⟩], st.calls + 1⟩ := by
  simp only [sendSMS]
  rw [saveMessage_ok_eq _ _ _ _ _ h]
  simp [truthy]

theorem sendMMS_resolved_eq (saveOk : Nat → Bool) (data : JSVal)
    (dOk dC : Nat) (st : StoreState) (h : saveOk st.calls = true) :
    sendMMS saveOk (.resolved data) dOk dC st =
      .ok ⟨st.rows ++ [⟨"MMS", if isTrue (optChain data ("success")) then 1 else 0, dOk⟩],
        st.calls + 1⟩ := by
  simp only [sendMMS]
  rw [saveMessage_ok_eq _ _ _ _ _ h]
  simp [truthy]

theorem sendMMS_fetchFailed_eq (saveOk : Nat → Bool)
    (dOk dC : Nat) (st : StoreState) (h : saveOk st.calls = true) :
    sendMMS saveOk .fetchFailed dOk dC st =
      .ok ⟨st.rows ++ [⟨"MMS", 0, dC⟩], st.calls + 1⟩ := by
  simp only [sendMMS]
  rw [saveMessage_ok_eq _ _ _ _ _ h]
  simp [truthy]

theorem sendMMS_postRejected_eq (saveOk : Nat → Bool)
    (dOk dC : Nat) (st : StoreState) (h : saveOk st.calls = true) :
    sendMMS saveOk .postRejected dOk dC st =
      .ok ⟨st.rows ++ [⟨"MMS", 0, dC⟩], st.calls + 1⟩ := by
  simp only [sendMMS]
  rw [saveMessage_ok_eq _ _ _ _ _ h]
  simp [truthy]

theorem sendSMS_ok_rows (saveOk : Nat → Bool) (text : String) (outcome : AxiosOutcome)
    (dOk dC : Nat) (st st' : StoreState)
    (h : sendSMS saveOk text outcome dOk dC st = .ok st') :
    ∃ s d, (s = 0 ∨ s = 1) ∧ st'.rows = st.rows ++ [⟨"SMS", s, d⟩] := by
  cases outcome with
  | resolved data =>
    simp only [sendSMS] at h
    split at h
    case _ st1 heq =>
      refine ⟨if isTrue (optChain data ("success")) then 1 else 0, dOk, ?_, ?_⟩
      · by_cases hc : isTrue (optChain data ("success")) = true <;> simp [hc]
      · cases h
        have := saveMessage_ok_rows _ _ _ _ _ _ heq
        simpa [truthy] using this
    case _ st1 heq =>
      refine ⟨0, dC, Or.inl rfl, ?_⟩
      have h1 := saveMessage_error_rows _ _ _ _ _ _ heq
      have h2 := saveMessage_ok_rows _ _ _ _ _ _ h
      rw [h2, h1]
      simp [truthy]
  | rejected =>
    simp only [sendSMS] at h
    refine ⟨0, dC, Or.inl rfl, ?_⟩
    have := saveMessage_ok_rows _ _ _ _ _ _ h
    simpa [truthy] using this

theorem sendMMS_ok_rows (saveOk : Nat → Bool) (outcome : MmsOutcome)
    (dOk dC : Nat) (st st' : StoreState)
    (h : sendMMS saveOk outcome dOk dC st = .ok st') :
    ∃ s d, (s = 0 ∨ s = 1) ∧ st'.rows = st.rows ++ [⟨"MMS", s, d⟩] := by
  cases outcome with
  | resolved data =>
    simp only [sendMMS] at h
    split at h
    case _ st1 heq =>
      refine ⟨if isTrue (optChain data ("success")) then 1 else 0, dOk, ?_, ?_⟩
      · by_cases hc : isTrue (optChain data ("success")) = true <;> simp [hc]
      · cases h
        have := saveMessage_ok_rows _ _ _ _ _ _ heq
        simpa [truthy] using this
    case _ st1 heq =>
      refine ⟨0, dC, Or.inl rfl, ?_⟩
      have h1 := saveMessage_error_rows _ _ _ _ _ _ heq
      have h2 := saveMessage_ok_rows _ _ _ _ _ _ h
      rw [h2, h1]
      simp [truthy]
  | fetchFailed =>
    simp only [sendMMS] at h
    refine ⟨0, dC, Or.inl rfl, ?_⟩
    have := saveMessage_ok_rows _ _ _ _ _ _ h
    simpa [truthy] using this
  | postRejected =>
    simp only [sendMMS] at h
    refine ⟨0, dC, Or.inl rfl, ?_⟩
    have := saveMessage_ok_rows _ _ _ _ _ _ h
    simpa [truthy] using this

theorem sendSMS_exists_ok (saveOk : Nat → Bool) (text : String) (outcome : AxiosOutcome)
    (dOk dC : Nat) (st : StoreState) (h : saveOk st.calls = true) :
    ∃ st1, sendSMS saveOk text outcome dOk dC st = .ok st1 := by
  cases outcome with
  | resolved data => exact ⟨_, sendSMS_resolved_eq _ _ _ _ _ _ h⟩
  | rejected => exact ⟨_, sendSMS_rejected_eq _ _ _ _ _ h⟩

theorem sendMMS_exists_ok (saveOk : Nat → Bool) (outcome : MmsOutcome)
    (dOk dC : Nat) (st : StoreState) (h : saveOk st.calls = true) :
    ∃ st1, sendMMS saveOk outcome dOk dC st = .ok st1 := by
  cases outcome with
  | resolved data => exact ⟨_, sendMMS_resolved_eq _ _ _ _ _ h⟩
  | fetchFailed => exact ⟨_, sendMMS_fetchFailed_eq _ _ _ _ h⟩
  | postRejected => exact ⟨_, sendMMS_postRejected_eq _ _ _ _ h⟩

/-! ## Lemmas about the dispatch loop -/

theorem smsLoop_ok_rows (ρ : RunEnv) (ms : List String) :
    ∀ fuel (st : StoreState) (evs : List Event) (st' : StoreState),
      smsLoop ρ ms fuel st = (evs, .ok st') →
      ∃ l, st'.rows = st.rows ++ l ∧ l.length = fuel ∧
        ∀ r ∈ l, r.type = "SMS" ∧ (r.success = 0 ∨ r.success = 1) := by
  intro fuel
  induction fuel with
  | zero =>
    intro st evs st' h
    simp only [smsLoop, Prod.mk.injEq] at h
    obtain ⟨-, h2⟩ := h
    cases h2
    exact ⟨[], by simp⟩
  | succ i ih =>
    intro st evs st' h
    rw [smsLoop] at h
    cases hsend : sendSMS ρ.saveOk (ms.getD i ("")) (ρ.outcomes i) (ρ.durOk i) (ρ.durCatch i) st with
    | error st1 => rw [hsend] at h; simp at h
    | ok st1 =>
      rw [hsend] at h
      simp only [Prod.mk.injEq] at h
      obtain ⟨-, h2⟩ := h
      obtain ⟨s, d, hs, hrows⟩ := sendSMS_ok_rows _ _ _ _ _ _ _ hsend
      obtain ⟨l, hl, hlen, hall⟩ := ih st1 (smsLoop ρ ms i st1).1 st' (by rw [← h2])
      refine ⟨⟨"SMS", s, d⟩ :: l, ?_, by simp [hlen], ?_⟩
      · rw [hl, hrows]; simp
      · intro r hr
        rcases List.mem_cons.mp hr with hr | hr
        · subst hr; exact ⟨rfl, hs⟩
        · exact hall r hr

theorem smsLoop_all_ok (ρ : RunEnv) (ms : List String) (hs : ∀ k, ρ.saveOk k = true) :
    ∀ fuel, fuel ≤ ms.length → ∀ st : StoreState,
      (smsLoop ρ ms fuel st).1 = textPat ((ms.take fuel).reverse) ∧
      ∃ st', (smsLoop ρ ms fuel st).2 = Except.ok st' := by
  intro fuel
  induction fuel with
  | zero => intro _ st; simp [smsLoop, textPat]
  | succ i ih =>
    intro hle st
    have hi : i < ms.length := Nat.lt_of_lt_of_le (Nat.lt_succ_self i) hle
    obtain ⟨st1, hst1⟩ :=
      sendSMS_exists_ok ρ.saveOk (ms.getD i ("")) (ρ.outcomes i) (ρ.durOk i) (ρ.durCatch i) st
        (hs st.calls)
    obtain ⟨htr, st2, hok⟩ := ih (Nat.le_of_lt hi) st1
    have hget : ms.getD i ("") = ms[i] := by
      simp [List.getD, List.getElem?_eq_getElem hi]
    have htake : (ms.take (i + 1)).reverse = ms[i] :: (ms.take i).reverse := by
      rw [List.take_succ, List.getElem?_eq_getElem hi]
      simp [List.reverse_concat]
    rw [smsLoop, hst1]
    constructor
    · simp only [htr, htake, hget, textPat, List.flatMap_cons]
      rfl
    · exact ⟨st2, hok⟩

/-- Case analysis on a full run: either the text loop threw a store error,
or it completed and the media send threw a store error, or everything was
persisted and the run completed. -/
theorem sendAll_cases (ρ : RunEnv) (ms : List String) (st0 : StoreState) :
    (∃ evs st1, smsLoop ρ ms ms.length st0 = (evs, .error st1) ∧
      sendAll ρ ms st0 = ⟨evs, st1, .exited 1⟩) ∨
    (∃ evs st1 st2, smsLoop ρ ms ms.length st0 = (evs, .ok st1) ∧
      sendMMS ρ.saveOk ρ.mmsOutcome ρ.mmsDurOk ρ.mmsDurCatch st1 = .error st2 ∧
      sendAll ρ ms st0 = ⟨evs ++ [.media], st2, .exited 1⟩) ∨
    (∃ evs st1 st2, smsLoop ρ ms ms.length st0 = (evs, .ok st1) ∧
      sendMMS ρ.saveOk ρ.mmsOutcome ρ.mmsDurOk ρ.mmsDurCatch st1 = .ok st2 ∧
      sendAll ρ ms st0 = ⟨evs ++ [.media], st2, .completed⟩) := by
  cases hloop : smsLoop ρ ms ms.length st0 with
  | mk evs res =>
    cases res with
    | error st1 =>
      refine Or.inl ⟨evs, st1, rfl, ?_⟩
      simp only [sendAll, hloop]
    | ok st1 =>
      cases hmms : sendMMS ρ.saveOk ρ.mmsOutcome ρ.mmsDurOk ρ.mmsDurCatch st1 with
      | error st2 =>
        refine Or.inr (Or.inl ⟨evs, st1, st2, rfl, hmms, ?_⟩)
        simp only [sendAll, hloop, hmms]
      | ok st2 =>
        refine Or.inr (Or.inr ⟨evs, st1, st2, rfl, hmms, ?_⟩)
        simp only [sendAll, hloop, hmms]

theorem sendAll_all_ok (ρ : RunEnv) (ms : List String) (st0 : StoreState)
    (hs : ∀ k, ρ.saveOk k = true) :
    (sendAll ρ ms st0).trace = textPat ms.reverse ++ [.media] ∧
    (sendAll ρ ms st0).result = .completed := by
  obtain ⟨htr, st1, hok⟩ := smsLoop_all_ok ρ ms hs ms.length le_rfl st0
  have hp : smsLoop ρ ms ms.length st0 = (textPat ms.reverse, Except.ok st1) := by
    rw [show smsLoop ρ ms ms.length st0 =
        ((smsLoop ρ ms ms.length st0).1, (smsLoop ρ ms ms.length st0).2) from rfl,
      htr, hok, List.take_length]
  obtain ⟨st2, hmms⟩ := sendMMS_exists_ok ρ.saveOk ρ.mmsOutcome ρ.mmsDurOk ρ.mmsDurCatch st1
    (hs st1.calls)
  have hall : sendAll ρ ms st0 = ⟨textPat ms.reverse ++ [.media], st2, .completed⟩ := by
    simp only [sendAll, hp, hmms]
  rw [hall]
  exact ⟨rfl, rfl⟩

theorem sendAll_completed_rows (ρ : RunEnv) (ms : List String) (st0 : StoreState)
    (h : (sendAll ρ ms st0).result = .completed) :
    ∃ l mrow, (sendAll ρ ms st0).store.rows = st0.rows ++ l ++ [mrow] ∧
      l.length = ms.length ∧
      (∀ r ∈ l, r.type = "SMS" ∧ (r.success = 0 ∨ r.success = 1)) ∧
      mrow.type = "MMS" ∧ (mrow.success = 0 ∨ mrow.success = 1) := by
  rcases sendAll_cases ρ ms st0 with ⟨evs, st1, hloop, heq⟩ |
    ⟨evs, st1, st2, hloop, hmms, heq⟩ | ⟨evs, st1, st2, hloop, hmms, heq⟩
  · rw [heq] at h; simp at h
  · rw [heq] at h; simp at h
  · rw [heq]
    obtain ⟨l, hl, hlen, hall⟩ := smsLoop_ok_rows ρ ms ms.length st0 evs st1 hloop
    obtain ⟨s, d, hsd, hrows⟩ := sendMMS_ok_rows _ _ _ _ _ _ hmms
    exact ⟨l, ⟨"MMS", s, d⟩, by simp [hrows, hl], hlen, hall, rfl, hsd⟩

/-! ## Lemmas about the trace pattern -/

theorem textPat_cons (a : String) (l : List String) :
    textPat (a :: l) = .text a :: .pause 7500 :: textPat l := by
  simp [textPat]

theorem textPayloads_textPat (l : List String) :
    textPayloads (textPat l ++ [Event.media]) = l := by
  induction l with
  | nil => simp [textPat, textPayloads]
  | cons a rest ih =>
    rw [textPat_cons]
    simpa [textPayloads, List.filterMap_cons] using ih

theorem media_not_mem_textPat (l : List String) : Event.media ∉ textPat l := by
  induction l with
  | nil => simp [textPat]
  | cons a rest ih => rw [textPat_cons]; simp [ih]

theorem count_media_textPat (l : List String) :
    (textPat l ++ [Event.media]).count .media = 1 := by
  rw [List.count_append]
  rw [List.count_eq_zero.mpr (media_not_mem_textPat l)]
  rfl

theorem textPat_head (l : List String) (p : Nat) :
    (textPat l ++ [Event.media]).head? ≠ some (.pause p) := by
  cases l with
  | nil => simp [textPat]
  | cons a rest => rw [textPat_cons]; simp

theorem textPat_pause_after_text (l : List String) :
    ∀ (i : Nat) (m : String), (textPat l ++ [Event.media])[i]? = some (.text m) →
      (textPat l ++ [Event.media])[i + 1]? = some (.pause 7500) := by
  induction l with
  | nil =>
    intro i m h
    cases i with
    | zero => simp [textPat] at h
    | succ j => simp [textPat] at h
  | cons a rest ih =>
    intro i m h
    rw [textPat_cons] at h ⊢
    cases i with
    | zero => simp
    | succ j =>
      cases j with
      | zero => simp at h
      | succ k =>
        have := ih k m (by simpa using h)
        simpa using this

/-! ## Normalisation invariant (success column is always 0 or 1) -/

theorem sendSMS_error_rows (saveOk : Nat → Bool) (text : String) (outcome : AxiosOutcome)
    (dOk dC : Nat) (st st' : StoreState)
    (h : sendSMS saveOk text outcome dOk dC st = .error st') :
    st'.rows = st.rows := by
  cases outcome with
  | resolved data =>
    simp only [sendSMS] at h
    split at h
    case _ st1 heq => simp at h
    case _ st1 heq =>
      rw [saveMessage_error_rows _ _ _ _ _ _ h, saveMessage_error_rows _ _ _ _ _ _ heq]
  | rejected =>
    simp only [sendSMS] at h
    exact saveMessage_error_rows _ _ _ _ _ _ h

theorem sendMMS_error_rows (saveOk : Nat → Bool) (outcome : MmsOutcome)
    (dOk dC : Nat) (st st' : StoreState)
    (h : sendMMS saveOk outcome dOk dC st = .error st') :
    st'.rows = st.rows := by
  cases outcome with
  | resolved data =>
    simp only [sendMMS] at h
    split at h
    case _ st1 heq => simp at h
    case _ st1 heq =>
      rw [saveMessage_error_rows _ _ _ _ _ _ h, saveMessage_error_rows _ _ _ _ _ _ heq]
  | fetchFailed =>
    simp only [sendMMS] at h
    exact saveMessage_error_rows _ _ _ _ _ _ h
  | postRejected =>
    simp only [sendMMS] at h
    exact saveMessage_error_rows _ _ _ _ _ _ h

theorem smsLoop_rows_any (ρ : RunEnv) (ms : List String) :
    ∀ fuel (st : StoreState),
      ∃ l, (∀ r ∈ l, r.type = "SMS" ∧ (r.success = 0 ∨ r.success = 1)) ∧
        ((∀ st', (smsLoop ρ ms fuel st).2 = Except.ok st' → st'.rows = st.rows ++ l) ∧
         (∀ st', (smsLoop ρ ms fuel st).2 = Except.error st' → st'.rows = st.rows ++ l)) := by
  intro fuel
  induction fuel with
  | zero =>
    intro st
    refine ⟨[], by simp, ?_, ?_⟩
    · intro st' h; simp only [smsLoop] at h; cases h; simp
    · intro st' h; simp only [smsLoop] at h; cases h
  | succ i ih =>
    intro st
    cases hsend : sendSMS ρ.saveOk (ms.getD i ("")) (ρ.outcomes i) (ρ.durOk i) (ρ.durCatch i) st with
    | error st1 =>
      refine ⟨[], by simp, ?_, ?_⟩
      · intro st' h; rw [smsLoop, hsend] at h; simp at h
      · intro st' h
        rw [smsLoop, hsend] at h
        cases h
        simpa using sendSMS_error_rows _ _ _ _ _ _ _ hsend
    | ok st1 =>
      obtain ⟨s, d, hsd, hrows⟩ := sendSMS_ok_rows _ _ _ _ _ _ _ hsend
      obtain ⟨l, hl, hok, herr⟩ := ih st1
      refine ⟨⟨"SMS", s, d⟩ :: l, ?_, ?_, ?_⟩
      · intro r hr
        rcases List.mem_cons.mp hr with hr | hr
        · subst hr; exact ⟨rfl, hsd⟩
        · exact hl r hr
      · intro st' h
        rw [smsLoop, hsend] at h
        simp only at h
        rw [hok st' h, hrows]
        simp
      · intro st' h
        rw [smsLoop, hsend] at h
        simp only at h
        rw [herr st' h, hrows]
        simp

theorem sendAll_rows_norm (ρ : RunEnv) (ms : List String) (st0 : StoreState)
    (h0 : norm01 st0.rows) : norm01 (sendAll ρ ms st0).store.rows := by
  obtain ⟨l, hl, hok, herr⟩ := smsLoop_rows_any ρ ms ms.length st0
  have hmem : ∀ rows, rows = st0.rows ++ l → norm01 rows := by
    intro rows hr r hrmem
    rw [hr] at hrmem
    rcases List.mem_append.mp hrmem with hm | hm
    · exact h0 r hm
    · exact (hl r hm).2
  rcases sendAll_cases ρ ms st0 with ⟨evs, st1, hloop, heq⟩ |
    ⟨evs, st1, st2, hloop, hmms, heq⟩ | ⟨evs, st1, st2, hloop, hmms, heq⟩
  · rw [heq]
    exact hmem st1.rows (herr st1 (by rw [hloop]))
  · rw [heq]
    intro r hr
    rw [sendMMS_error_rows _ _ _ _ _ _ hmms] at hr
    exact hmem st1.rows (hok st1 (by rw [hloop])) r hr
  · rw [heq]
    obtain ⟨s, d, hsd, hrows⟩ := sendMMS_ok_rows _ _ _ _ _ _ hmms
    intro r hr
    rw [hrows] at hr
    rcases List.mem_append.mp hr with hm | hm
    · exact hmem st1.rows (hok st1 (by rw [hloop])) r hm
    · rcases List.mem_singleton.mp hm with rfl
      exact hsd

/-! ## Claim theorems -/

/-- Claim C1: the dispatch run sends the configured text payloads in
strictly reverse declaration order.  For any payload list and any send
outcomes (with a functioning store), the text sends of the trace are
exactly the reversed payload list, so the i-th gateway text call carries
the payload at index length-1-i, and the trace ends with exactly one
media send. -/
theorem claim1_reverse_order (ρ : RunEnv) (ms : List String) (st0 : StoreState)
    (hs : ∀ k, ρ.saveOk k = true) (i : Nat) (hi : i < ms.length) :
    textPayloads (sendAll ρ ms st0).trace = ms.reverse ∧
    (sendAll ρ ms st0).trace.count .media = 1 ∧
    (sendAll ρ ms st0).trace.getLast? = some .media ∧
    (textPayloads (sendAll ρ ms st0).trace)[i]? = ms[ms.length - 1 - i]? := by
  obtain ⟨htr, -⟩ := sendAll_all_ok ρ ms st0 hs
  rw [htr]
  refine ⟨textPayloads_textPat ms.reverse, count_media_textPat ms.reverse,
    List.getLast?_concat _, ?_⟩
  rw [textPayloads_textPat ms.reverse]
  exact List.getElem?_reverse hi

/-- Witness for C1 at the concrete two-payload run. -/
theorem claim1_reverse_order_witness :
    textPayloads (sendAll okEnv ["a", "b"] ⟨[], 0⟩).trace = ["a", "b"].reverse ∧
    (sendAll okEnv ["a", "b"] ⟨[], 0⟩).trace.count .media = 1 ∧
    (sendAll okEnv ["a", "b"] ⟨[], 0⟩).trace.getLast? = some .media ∧
    (textPayloads (sendAll okEnv ["a", "b"] ⟨[], 0⟩).trace)[0]? =
      ["a", "b"][["a", "b"].length - 1 - 0]? :=
  claim1_reverse_order okEnv ["a", "b"] ⟨[], 0⟩ (fun _ => rfl) 0 (by decide)

/-- Claim C2: every completed run over N configured text payloads adds
exactly N+1 records to the store: N of type SMS and one of type MMS,
regardless of individual send outcomes. -/
theorem claim2_record_count (ρ : RunEnv) (ms : List String) (st0 : StoreState)
    (h : (sendAll ρ ms st0).result = .completed) :
    (sendAll ρ ms st0).store.rows.length = st0.rows.length + (ms.length + 1) ∧
    smsCount (sendAll ρ ms st0).store.rows = smsCount st0.rows + ms.length ∧
    mmsCount (sendAll ρ ms st0).store.rows = mmsCount st0.rows + 1 := by
  obtain ⟨l, mrow, hrows, hlen, hall, hmtype, -⟩ := sendAll_completed_rows ρ ms st0 h
  rw [hrows]
  refine ⟨by simp [hlen, Nat.add_assoc], ?_, ?_⟩
  · unfold smsCount
    rw [List.filter_append, List.filter_append, List.length_append, List.length_append]
    have h1 : l.filter (fun r => r.type == "SMS") = l :=
      List.filter_eq_self.mpr (fun r hr => by simp [(hall r hr).1])
    have h2 : [mrow].filter (fun r => r.type == "SMS") = [] := by
      simp [List.filter, hmtype]
    rw [h1, h2, hlen]
    simp
  · unfold mmsCount
    rw [List.filter_append, List.filter_append, List.length_append, List.length_append]
    have h1 : l.filter (fun r => r.type == "MMS") = [] := by
      rw [List.filter_eq_nil_iff]
      intro r hr
      simp [(hall r hr).1]
    have h2 : [mrow].filter (fun r => r.type == "MMS") = [mrow] := by
      simp [List.filter, hmtype]
    rw [h1, h2]
    simp

/-- Witness for C2 at the concrete two-payload run. -/
theorem claim2_record_count_witness :
    (sendAll okEnv ["a", "b"] ⟨[], 0⟩).store.rows.length =
      (⟨[], 0⟩ : StoreState).rows.length + (["a", "b"].length + 1) ∧
    smsCount (sendAll okEnv ["a", "b"] ⟨[], 0⟩).store.rows =
      smsCount (⟨[], 0⟩ : StoreState).rows + ["a", "b"].length ∧
    mmsCount (sendAll okEnv ["a", "b"] ⟨[], 0⟩).store.rows =
      mmsCount (⟨[], 0⟩ : StoreState).rows + 1 :=
  claim2_record_count okEnv ["a", "b"] ⟨[], 0⟩ (by decide)

/-- Claim C3: for every send, the recorded succeeded flag is 1 exactly
when a response was received and its body has the field success strictly
equal to the boolean true; a rejected request (non-2xx, network or
timeout error), a missing or false field, and a malformed body all yield
a 0 flag, for both the text and the media path. -/
theorem claim3_success_classification (saveOk : Nat → Bool) (st : StoreState)
    (text : String) (data : JSVal) (dOk dC : Nat) (h : saveOk st.calls = true) :
    (isTrue (optChain data ("success")) = true ↔ optChain data ("success") = .vBool true) ∧
    sendSMS saveOk text (.resolved data) dOk dC st =
      .ok ⟨st.rows ++ [⟨"SMS", if isTrue (optChain data ("success")) then 1 else 0, dOk⟩],
        st.calls + 1⟩ ∧
    sendSMS saveOk text .rejected dOk dC st =
      .ok ⟨st.rows ++ [⟨"SMS", 0, dC⟩], st.calls + 1⟩ ∧
    sendMMS saveOk (.resolved data) dOk dC st =
      .ok ⟨st.rows ++ [⟨"MMS", if isTrue (optChain data ("success")) then 1 else 0, dOk⟩],
        st.calls + 1⟩ ∧
    sendMMS saveOk .postRejected dOk dC st =
      .ok ⟨st.rows ++ [⟨"MMS", 0, dC⟩], st.calls + 1⟩ := by
  refine ⟨?_, sendSMS_resolved_eq _ _ _ _ _ _ h, sendSMS_rejected_eq _ _ _ _ _ h,
    sendMMS_resolved_eq _ _ _ _ _ h, sendMMS_postRejected_eq _ _ _ _ h⟩
  cases hv : optChain data ("success") with
  | vBool b => cases b <;> simp [isTrue]
  | _ => simp [isTrue]

/-- Witness for C3 at a body whose success field is the boolean true. -/
theorem claim3_success_classification_witness :
    (isTrue (optChain goodBody ("success")) = true ↔
      optChain goodBody ("success") = .vBool true) ∧
    sendSMS (fun _ => true) ("x") (.resolved goodBody) 5 6 ⟨[], 0⟩ =
      .ok ⟨(⟨[], 0⟩ : StoreState).rows ++
        [⟨"SMS", if isTrue (optChain goodBody ("success")) then 1 else 0, 5⟩],
        (⟨[], 0⟩ : StoreState).calls + 1⟩ ∧
    sendSMS (fun _ => true) ("x") .rejected 5 6 ⟨[], 0⟩ =
      .ok ⟨(⟨[], 0⟩ : StoreState).rows ++ [⟨"SMS", 0, 6⟩],
        (⟨[], 0⟩ : StoreState).calls + 1⟩ ∧
    sendMMS (fun _ => true) (.resolved goodBody) 5 6 ⟨[], 0⟩ =
      .ok ⟨(⟨[], 0⟩ : StoreState).rows ++
        [⟨"MMS", if isTrue (optChain goodBody ("success")) then 1 else 0, 5⟩],
        (⟨[], 0⟩ : StoreState).calls + 1⟩ ∧
    sendMMS (fun _ => true) .postRejected 5 6 ⟨[], 0⟩ =
      .ok ⟨(⟨[], 0⟩ : StoreState).rows ++ [⟨"MMS", 0, 6⟩],
        (⟨[], 0⟩ : StoreState).calls + 1⟩ :=
  claim3_success_classification (fun _ => true) ⟨[], 0⟩ ("x") goodBody 5 6 rfl

/-- Claim C4: a transport-level failure of a text or media send (gateway
rejection, or image-provider fetch failure) does not raise to the
sequencer loop: the operation returns normally, persists one record with
a 0 success flag and the measured catch-path duration, and a run in which
every store insert succeeds always completes regardless of send
outcomes. -/
theorem claim4_transport_failure_recovery (ρ : RunEnv) (ms : List String)
    (st0 st : StoreState) (saveOk : Nat → Bool) (text : String) (dOk dC : Nat)
    (hs : ∀ k, ρ.saveOk k = true) (h : saveOk st.calls = true) :
    sendSMS saveOk text .rejected dOk dC st =
      .ok ⟨st.rows ++ [⟨"SMS", 0, dC⟩], st.calls + 1⟩ ∧
    sendMMS saveOk .fetchFailed dOk dC st =
      .ok ⟨st.rows ++ [⟨"MMS", 0, dC⟩], st.calls + 1⟩ ∧
    sendMMS saveOk .postRejected dOk dC st =
      .ok ⟨st.rows ++ [⟨"MMS", 0, dC⟩], st.calls + 1⟩ ∧
    (sendAll ρ ms st0).result = .completed :=
  ⟨sendSMS_rejected_eq _ _ _ _ _ h, sendMMS_fetchFailed_eq _ _ _ _ h,
    sendMMS_postRejected_eq _ _ _ _ h, (sendAll_all_ok ρ ms st0 hs).2⟩

/-- Witness for C4: every send fails at the transport level in `okEnv`,
yet the run completes and each failure is recorded. -/
theorem claim4_transport_failure_recovery_witness :
    sendSMS (fun _ => true) ("x") .rejected 5 6 ⟨[], 0⟩ =
      .ok ⟨(⟨[], 0⟩ : StoreState).rows ++ [⟨"SMS", 0, 6⟩],
        (⟨[], 0⟩ : StoreState).calls + 1⟩ ∧
    sendMMS (fun _ => true) .fetchFailed 5 6 ⟨[], 0⟩ =
      .ok ⟨(⟨[], 0⟩ : StoreState).rows ++ [⟨"MMS", 0, 6⟩],
        (⟨[], 0⟩ : StoreState).calls + 1⟩ ∧
    sendMMS (fun _ => true) .postRejected 5 6 ⟨[], 0⟩ =
      .ok ⟨(⟨[], 0⟩ : StoreState).rows ++ [⟨"MMS", 0, 6⟩],
        (⟨[], 0⟩ : StoreState).calls + 1⟩ ∧
    (sendAll okEnv ["a", "b"] ⟨[], 0⟩).result = .completed :=
  claim4_transport_failure_recovery okEnv ["a", "b"] ⟨[], 0⟩ ⟨[], 0⟩
    (fun _ => true) ("x") 5 6 (fun _ => rfl) rfl

/-- Claim C5 evaluation: the code does not make every store failure
fatal.  In the run below the store rejects exactly the first insert (the
one recording a successfully sent text) and recovers afterwards; the run
does not abort: it completes, keeps sending the remaining payloads and
the media message, and the attempt whose insert failed is re-recorded by
the catch block as a failed SMS although the send itself succeeded. -/
theorem claim5_store_failure_not_fatal :
    transientFailEnv.saveOk 0 = false ∧
    sendAll transientFailEnv ["a", "b"] ⟨[], 0⟩ =
      ⟨[.text ("b"), .pause 7500, .text ("a"), .pause 7500, .media],
        ⟨[⟨"SMS", 0, 12⟩, ⟨"SMS", 1, 10⟩, ⟨"MMS", 1, 20⟩], 4⟩, .completed⟩ := by
  exact ⟨rfl, by decide⟩

/-- Claim C6: the summary of an empty store is total 0, zero SMS and MMS
counts, average duration 0.00 and success rate 0.00, with no division by
zero (the computation is total). -/
theorem claim6_empty_summary : getSummary [] = ⟨0, 0, 0, 0, 0⟩ := by
  simp [getSummary, toFixed2X100, avgValue, successRateValue, successCount,
    smsCount, mmsCount, durationSum, jsOr1]

/-- Claim C7: on the record set of testable property 4 the summary is
total 3, 2 SMS, 1 MMS, average duration 200.00 and success rate 66.67;
in general, for a non-empty store the average is the mean of the
durations and the success rate is 100 times the fraction of rows whose
success column is 1. -/
theorem claim7_summary_values (rows : List MessageRow) (h : rows ≠ []) :
    getSummary exampleRows = ⟨3, 2, 1, 20000, 6667⟩ ∧
    avgValue rows * (rows.length : ℚ) = (durationSum rows : ℚ) ∧
    successRateValue rows * (rows.length : ℚ) = 100 * (successCount rows : ℚ) := by
  have hlen0 : rows.length ≠ 0 := fun h0 => h (List.length_eq_zero.mp h0)
  have hlen : (rows.length : ℚ) ≠ 0 := Nat.cast_ne_zero.mpr hlen0
  refine ⟨?_, ?_, ?_⟩
  · simp [exampleRows, getSummary, toFixed2X100, avgValue, successRateValue,
      successCount, smsCount, mmsCount, durationSum, jsOr1, List.filter, List.foldl]
    norm_num [round_eq]
  · rw [avgValue, jsOr1, if_neg hlen0]
    field_simp
  · rw [successRateValue, jsOr1, if_neg hlen0]
    field_simp
    ring

/-- Witness for C7 at the record set of testable property 4. -/
theorem claim7_summary_values_witness :
    getSummary exampleRows = ⟨3, 2, 1, 20000, 6667⟩ ∧
    avgValue exampleRows * (exampleRows.length : ℚ) = (durationSum exampleRows : ℚ) ∧
    successRateValue exampleRows * (exampleRows.length : ℚ) =
      100 * (successCount exampleRows : ℚ) :=
  claim7_summary_values exampleRows (by decide)

/-- Claim C8 counterexample: the text send does not go to
`<base>/text/send` and the media send does not go to `<base>/media/send`;
the code posts to `<base>/sms/send` and `<base>/mms/send`. -/
theorem claim8_wire_contract_counterexample :
    (buildSmsRequest env0 ("x")).url ≠ env0.apiBase ++ "/text/send" ∧
    (buildMmsRequest env0 []).url ≠ env0.apiBase ++ "/media/send" := by
  constructor <;> decide

/-- Claim C8 amended: every text send is a POST to `<base>/sms/send` with
JSON body account_id, to_number, payload, the Integrator base64 auth
header and a JSON content type; every media send is a POST to
`<base>/mms/send` as multipart/form-data with fields account_id,
to_number, payload (the caption) and the image1 file part with filename
and content-type metadata, under the same auth header. -/
theorem claim8_wire_contract (e : Env) (text : String) (image : List Nat) :
    buildSmsRequest e text =
      { method := "POST"
        url := e.apiBase ++ "/sms/send"
        body := [("account_id", .vStr e.accountId), ("to_number", .vStr e.phone),
          ("payload", .vStr text)]
        headers := [("Authorization",
            "Integrator " ++ base64Encode (utf8Bytes (e.user ++ ":" ++ e.pass))),
          ("Content-Type", "application/json")] } ∧
    buildMmsRequest e image =
      { method := "POST"
        url := e.apiBase ++ "/mms/send"
        parts := [.field ("account_id") e.accountId, .field ("to_number") e.phone,
          .field ("payload") "This is a test MMS message",
          .file ("image1") image ("image.jpg") "image/jpeg"]
        headers := [("Authorization",
            "Integrator " ++ base64Encode (utf8Bytes (e.user ++ ":" ++ e.pass))),
          ("Content-Type", "multipart/form-data")] } :=
  ⟨rfl, rfl⟩

/-- Claim C9: in any run with a functioning store, the 7.5 second pacing
interval elapses after every text send (hence between every pair of
consecutive text sends), no pacing wait occurs before the first send
(the trace never starts with a pause), and none occurs after the
terminal media send (the media send is the last trace event). -/
theorem claim9_pacing (ρ : RunEnv) (ms : List String) (st0 : StoreState)
    (hs : ∀ k, ρ.saveOk k = true) (p i : Nat) (m : String) :
    (sendAll ρ ms st0).trace.head? ≠ some (.pause p) ∧
    (sendAll ρ ms st0).trace.getLast? = some .media ∧
    ((sendAll ρ ms st0).trace[i]? = some (.text m) →
      (sendAll ρ ms st0).trace[i + 1]? = some (.pause 7500)) := by
  obtain ⟨htr, -⟩ := sendAll_all_ok ρ ms st0 hs
  rw [htr]
  exact ⟨textPat_head ms.reverse p, List.getLast?_concat _,
    textPat_pause_after_text ms.reverse i m⟩

/-- Witness for C9 at the concrete two-payload run. -/
theorem claim9_pacing_witness :
    (sendAll okEnv ["a", "b"] ⟨[], 0⟩).trace.head? ≠ some (.pause 7500) ∧
    (sendAll okEnv ["a", "b"] ⟨[], 0⟩).trace.getLast? = some .media ∧
    ((sendAll okEnv ["a", "b"] ⟨[], 0⟩).trace[0]? = some (.text ("b")) →
      (sendAll okEnv ["a", "b"] ⟨[], 0⟩).trace[0 + 1]? = some (.pause 7500)) :=
  claim9_pacing okEnv ["a", "b"] ⟨[], 0⟩ (fun _ => rfl) 7500 0 "b"

/-- Claim C10: the store normalises the success flag on write: the
persisted success column is 1 exactly when the passed flag is truthy and
0 otherwise, so it is always 0 or 1 and every record set a run produces
from a normalised store stays normalised; the summary counts as
successful exactly the rows whose success column equals 1, so a write
raises that count by one precisely when the flag was truthy. -/
theorem claim10_success_normalised (saveOk : Nat → Bool) (type : String)
    (flag : JSVal) (dur : Nat) (st : StoreState) (ρ : RunEnv) (ms : List String)
    (st0 : StoreState) (h : saveOk st.calls = true) (h0 : norm01 st0.rows) :
    saveMessage saveOk type flag dur st =
      .ok ⟨st.rows ++ [⟨type, if truthy flag then 1 else 0, dur⟩], st.calls + 1⟩ ∧
    ((if truthy flag then (1 : Int) else 0) = 0 ∨
      (if truthy flag then (1 : Int) else 0) = 1) ∧
    successCount (st.rows ++ [⟨type, if truthy flag then 1 else 0, dur⟩]) =
      successCount st.rows + (if truthy flag then 1 else 0) ∧
    norm01 (sendAll ρ ms st0).store.rows := by
  refine ⟨saveMessage_ok_eq _ _ _ _ _ h, ?_, ?_, sendAll_rows_norm ρ ms st0 h0⟩
  · by_cases hf : truthy flag = true <;> simp [hf]
  · unfold successCount
    rw [List.filter_append, List.length_append]
    by_cases hf : truthy flag = true <;> simp [hf, List.filter]

/-- Witness for C10 at a truthy non-boolean flag. -/
theorem claim10_success_normalised_witness :
    saveMessage (fun _ => true) ("SMS") (.vNum 5) 3 ⟨[], 0⟩ =
      .ok ⟨(⟨[], 0⟩ : StoreState).rows ++
        [⟨"SMS", if truthy (.vNum 5) then 1 else 0, 3⟩],
        (⟨[], 0⟩ : StoreState).calls + 1⟩ ∧
    ((if truthy (.vNum 5) then (1 : Int) else 0) = 0 ∨
      (if truthy (.vNum 5) then (1 : Int) else 0) = 1) ∧
    successCount ((⟨[], 0⟩ : StoreState).rows ++
        [⟨"SMS", if truthy (.vNum 5) then 1 else 0, 3⟩]) =
      successCount (⟨[], 0⟩ : StoreState).rows + (if truthy (.vNum 5) then 1 else 0) ∧
    norm01 (sendAll okEnv ["a"] ⟨[], 0⟩).store.rows :=
  claim10_success_normalised (fun _ => true) ("SMS") (.vNum 5) 3 ⟨[], 0⟩ okEnv ["a"]
    ⟨[], 0⟩ rfl (fun r hr => absurd hr (List.not_mem_nil r))

end TeleTracker
